import Mathlib

/-!
Verification development for the Ro-Dou notification/config core:
a shallow embedding of `src/parsers.py`, `src/notification/email_sender.py`
and `src/notification/slack_sender.py`, with theorems checking the
natural-language specification's claims against the embedded code.
-/

namespace RoDou

/-- Python-like dynamic values, as produced by `yaml.safe_load` and
manipulated by the parser (dicts are ordered association lists, as Python
dicts preserve insertion order). -/
inductive Py where
  | null
  | bool (b : Bool)
  | int (n : Int)
  | str (s : String)
  | list (xs : List Py)
  | dict (kvs : List (String × Py))

/-- Python truthiness (`if value:`). -/
def pyTruthy : Py → Bool
  | Py.null => false
  | Py.bool b => b
  | Py.int n => n ≠ 0
  | Py.str s => ¬ s.isEmpty
  | Py.list xs => ¬ xs.isEmpty
  | Py.dict kvs => ¬ kvs.isEmpty

/-- Python `str.split("/")` over the characters (keeps empty segments, as
Python does; the result is never the empty list). -/
def splitSlashAux : List Char → List Char → List String
  | acc, [] => [String.mk acc.reverse]
  | acc, '/' :: rest => String.mk acc.reverse :: splitSlashAux [] rest
  | acc, c :: rest => splitSlashAux (c :: acc) rest

/-- `self.filepath.split("/")[-1]` (parsers.py line 198). -/
def fileName (fp : String) : String := (splitSlashAux [] fp.toList).getLastD fp

/-- The default missing-field message assembled by `YAMLParser._try_get`
(parsers.py lines 196-199). -/
def missingFieldMsg (fp field : String) : String :=
  "Erro no arquivo " ++ fileName fp ++ ": O campo `" ++ field ++ "` é obrigatório."

/-- `YAMLParser._try_get` (parsers.py lines 190-200): indexing a dict,
catching only `KeyError` and re-raising the funnel message.  Indexing a
non-dict raises an uncaught `TypeError` in Python, modelled as a distinct
error string.  The optional `error_msg` parameter of the source is never
supplied by any caller in this repository, so it is not modelled. -/
def tryGet (fp : String) (v : Py) (field : String) : Except String Py :=
  match v with
  | Py.dict kvs =>
    match kvs.lookup field with
    | some x => Except.ok x
    | none => Except.error (missingFieldMsg fp field)
  | _ => Except.error ("TypeError: non-dict value indexed with `" ++ field ++ "`")

/-- Python `dict.get(field, default)`. -/
def dictGet (kvs : List (String × Py)) (field : String) (dflt : Py) : Py :=
  (kvs.lookup field).getD dflt

/-- Calling `.get` on a non-dict raises `AttributeError` in Python. -/
def asDict (v : Py) : Except String (List (String × Py)) :=
  match v with
  | Py.dict kvs => Except.ok kvs
  | _ => Except.error "AttributeError: object has no attribute get"

/-- Plain `value[field]` indexing (used for `report[\"discord\"][\"webhook\"]`),
whose `KeyError` is not caught anywhere. -/
def pyIndexStr (v : Py) (field : String) : Except String Py :=
  match v with
  | Py.dict kvs =>
    match kvs.lookup field with
    | some x => Except.ok x
    | none => Except.error ("KeyError: " ++ field)
  | _ => Except.error ("TypeError: non-dict value indexed with `" ++ field ++ "`")

/-- Auxiliary for `pySplitlines`: splits on LF, CRLF and CR, with no
trailing empty line (Python `str.splitlines` semantics on the common
line-break characters). -/
def splitlinesAux : List Char → List Char → List String
  | acc, [] => if acc.isEmpty then [] else [String.mk acc.reverse]
  | acc, '\r' :: '\n' :: rest => String.mk acc.reverse :: splitlinesAux [] rest
  | acc, '\n' :: rest => String.mk acc.reverse :: splitlinesAux [] rest
  | acc, '\r' :: rest => String.mk acc.reverse :: splitlinesAux [] rest
  | acc, c :: rest => splitlinesAux (c :: acc) rest

/-- Python `str.splitlines()` restricted to the LF/CRLF/CR breaks that can
occur in Airflow variable values. -/
def pySplitlines (s : String) : List String := splitlinesAux [] s.toList

/-- Skip blanks between tokens of a Python literal. -/
def skipWs : List Char → List Char
  | [] => []
  | c :: cs => if c = ' ' ∨ c = '\t' ∨ c = '\n' ∨ c = '\r' then skipWs cs else c :: cs

/-- String-literal body parser for `literalEval`: consumes characters up to
the closing quote, handling the common backslash escapes (an unrecognised
escape keeps both characters, as Python does). -/
def parseStrAux (q : Char) : List Char → List Char → Option (String × List Char)
  | _, [] => none
  | acc, '\\' :: c :: rest =>
    if c = 'n' then parseStrAux q ('\n' :: acc) rest
    else if c = 't' then parseStrAux q ('\t' :: acc) rest
    else if c = 'r' then parseStrAux q ('\r' :: acc) rest
    else if c = '\\' ∨ c = '\'' ∨ c = '"' then parseStrAux q (c :: acc) rest
    else parseStrAux q (c :: '\\' :: acc) rest
  | acc, c :: rest =>
    if c = q then some (String.mk acc.reverse, rest) else parseStrAux q (c :: acc) rest

/-- Digit run to a natural number. -/
def digitsToNat (ds : List Char) : Nat :=
  ds.foldl (fun n c => 10 * n + (c.toNat - '0'.toNat)) 0

mutual

/-- Fuelled recursive-descent parser modelling `ast.literal_eval`
(parsers.py line 174) on the fragment relevant to Airflow variables:
`None`, booleans, decimal integers, quoted strings and (nested) lists.
Other Python literal forms (floats, tuples, dicts, sets) are treated as
parse failures by this model. -/
def parseLit : Nat → List Char → Option (Py × List Char)
  | 0, _ => none
  | fuel + 1, cs =>
    match skipWs cs with
    | '[' :: rest => parseItems fuel rest []
    | '\'' :: rest => (parseStrAux '\'' [] rest).map (fun p => (Py.str p.1, p.2))
    | '"' :: rest => (parseStrAux '"' [] rest).map (fun p => (Py.str p.1, p.2))
    | 'N' :: 'o' :: 'n' :: 'e' :: rest => some (Py.null, rest)
    | 'T' :: 'r' :: 'u' :: 'e' :: rest => some (Py.bool true, rest)
    | 'F' :: 'a' :: 'l' :: 's' :: 'e' :: rest => some (Py.bool false, rest)
    | '-' :: rest =>
      let ds := rest.takeWhile (fun c => c.isDigit)
      if ds.isEmpty then none
      else some (Py.int (-(digitsToNat ds : Int)), rest.dropWhile (fun c => c.isDigit))
    | c :: rest =>
      if c.isDigit then
        let all := c :: rest
        some (Py.int (digitsToNat (all.takeWhile (fun x => x.isDigit)) : Int),
              all.dropWhile (fun x => x.isDigit))
      else none
    | [] => none

/-- List-item loop of `parseLit` (accepts a trailing comma, as Python does). -/
def parseItems : Nat → List Char → List Py → Option (Py × List Char)
  | 0, _, _ => none
  | fuel + 1, cs, acc =>
    match skipWs cs with
    | ']' :: rest => some (Py.list acc.reverse, rest)
    | cs' =>
      match parseLit fuel cs' with
      | none => none
      | some (v, rest) =>
        match skipWs rest with
        | ',' :: rest' => parseItems fuel rest' (v :: acc)
        | ']' :: rest' => some (Py.list (v :: acc).reverse, rest')
        | _ => none

end

/-- Model of `ast.literal_eval` on a whole string: the parsed value, or
`none` when the string is not a recognised literal (Python would raise
`ValueError`/`SyntaxError`, which the source catches). -/
def literalEval (s : String) : Option Py :=
  match parseLit (2 * s.length + 2) s.toList with
  | some (v, rest) => if (skipWs rest).isEmpty then some v else none
  | none => none

/-- The invalid-`terms`-shape message raised at parsers.py lines 183-187
(the three adjacent source string literals concatenate to this). -/
def termsFieldErrorMsg : String :=
  "O campo `terms` aceita como valores válidos uma lista de strings ou parâmetros do tipo `from_airflow_variable` ou `from_db_select`."

/-- `YAMLParser._get_terms_params` (parsers.py lines 165-188), with the
external `Variable.get` collaborator passed in as `lookup`.  Returns the
`(terms, sql, conn_id)` triple; `sql`/`conn_id` are `Py.null` (Python
`None`) except on the `from_db_select` path. -/
def getTermsParams (fp : String) (lookup : String → String) (search : Py) :
    Except String (Py × Py × Py) :=
  match tryGet fp search "terms" with
  | Except.error e => Except.error e
  | Except.ok terms =>
    match terms with
    | Py.dict kvs =>
      match kvs.lookup "from_airflow_variable" with
      | some varName =>
        match varName with
        | Py.str name =>
          let varValue := lookup name
          match literalEval varValue with
          | some v => Except.ok (v, Py.null, Py.null)
          | none =>
            Except.ok (Py.list ((pySplitlines varValue).map Py.str), Py.null, Py.null)
        | _ => Except.error "TypeError: Variable.get requires a string key"
      | none =>
        match kvs.lookup "from_db_select" with
        | some fromDbSelect =>
          match tryGet fp fromDbSelect "sql" with
          | Except.error e => Except.error e
          | Except.ok sql =>
            match tryGet fp fromDbSelect "conn_id" with
            | Except.error e => Except.error e
            | Except.ok connId => Except.ok (Py.list [], sql, connId)
        | none => Except.error termsFieldErrorMsg
    | other => Except.ok (other, Py.null, Py.null)

/-- All elements are string values (used to model Python operations that
expect iterables of `str`). -/
def allStrings : List Py → Option (List String)
  | [] => some []
  | Py.str s :: rest => (allStrings rest).map (fun ss => s :: ss)
  | _ => none

/-- `sep.join(value)` (parsers.py line 117): joins a list of strings, or the
characters of a string; anything else raises `TypeError`. -/
def pyJoin (sep : String) (v : Py) : Except String String :=
  match v with
  | Py.list xs =>
    match allStrings xs with
    | some ss => Except.ok (String.intercalate sep ss)
    | none => Except.error "TypeError: sequence item: expected str instance"
  | Py.str s => Except.ok (String.intercalate sep (s.toList.map (fun c => String.mk [c])))
  | _ => Except.error "TypeError: can only join an iterable"

/-- A line containing at least one non-blank character (the lines over
which `textwrap.dedent` computes the common margin). -/
def lineHasContent (l : String) : Bool :=
  l.toList.any (fun c => ¬ (c = ' ' ∨ c = '\t'))

/-- Leading whitespace of a line. -/
def wsMargin (l : String) : List Char :=
  l.toList.takeWhile (fun c => c = ' ' ∨ c = '\t')

/-- Longest common margin of two whitespace runs. -/
def commonMargin : List Char → List Char → List Char
  | a :: as, b :: bs => if a = b then a :: commonMargin as bs else []
  | _, _ => []

/-- Does the line start with the given margin? -/
def startsWithMargin : List Char → List Char → Bool
  | [], _ => true
  | _ :: _, [] => false
  | a :: as, b :: bs => a = b && startsWithMargin as bs

/-- Model of `textwrap.dedent`: the longest common leading whitespace of
all lines with content is removed from every line that starts with it. -/
def pyDedent (s : String) : String :=
  let lines := s.splitOn "\n"
  let contentLines := lines.filter lineHasContent
  let margin : List Char :=
    match contentLines with
    | [] => []
    | l :: ls => ls.foldl (fun m l2 => commonMargin m (wsMargin l2)) (wsMargin l)
  let strip := fun (l : String) =>
    if startsWithMargin margin l.toList then String.mk (l.toList.drop margin.length) else l
  String.intercalate "\n" (lines.map strip)

/-- Model of `textwrap.indent(text, pfx)` with the default predicate: the
prefix is added to every line containing non-whitespace. -/
def pyIndent (pfx : String) (s : String) : String :=
  String.intercalate "\n"
    ((s.splitOn "\n").map
      (fun l => if l.toList.any (fun c => ¬ c.isWhitespace) then pfx ++ l else l))

/-- Bounded model of Python `repr` (only reached through `pyStr` on lists
and dicts, which no claim exercises; nesting deeper than the fuel is cut
off). -/
def pyReprFuel : Nat → Py → String
  | 0, _ => ""
  | _ + 1, Py.null => "None"
  | _ + 1, Py.bool b => if b then "True" else "False"
  | _ + 1, Py.int n => toString n
  | _ + 1, Py.str s => "'" ++ s ++ "'"
  | fuel + 1, Py.list xs =>
    "[" ++ String.intercalate ", " (xs.map (pyReprFuel fuel)) ++ "]"
  | fuel + 1, Py.dict kvs =>
    "\x7b" ++
      String.intercalate ", "
        (kvs.map (fun kv => "'" ++ kv.1 ++ "': " ++ pyReprFuel fuel kv.2)) ++
    "\x7d"

/-- Python `str()` as used by f-string interpolation. -/
def pyStr : Py → String
  | Py.str s => s
  | Py.null => "None"
  | Py.bool b => if b then "True" else "False"
  | Py.int n => toString n
  | v => pyReprFuel 1000 v

/-- One processed search block: the `proc_subsearch` dict built at
parsers.py lines 95-115 (fields keep the raw `Py` values the source
stores, defaults as in the source). -/
structure ProcSearch where
  header : Py
  sources : Py
  terms : Py
  sql : Py
  connId : Py
  territoryId : Py
  douSections : Py
  searchDate : Py
  field : Py
  isExactSearch : Py
  ignoreSignatureMatch : Py
  forceRematch : Py
  fullText : Py
  useSummary : Py
  department : Py

/-- The `DAGConfig` dataclass (parsers.py lines 33-52).  Fields hold the
raw `Py` values the source stores; `dagTags` models the `set(dag_tags)`
materialisation (tags restricted to strings, duplicates collapsed) and
`owner` the `", ".join(...)` result. -/
structure DAGConfig where
  dagId : Py
  search : List ProcSearch
  emails : Py
  subject : Py
  attachCsv : Py
  discordWebhook : Py
  slackWebhook : Py
  schedule : Py
  dataset : Py
  description : Py
  skipNull : Py
  docMd : Py
  dagTags : List String
  owner : String
  hideFilters : Py
  headerText : Py
  footerText : Py
  noResultsFoundText : Py

/-- `YAMLParser._parse_yaml` (parsers.py lines 76-163) applied to the
already-loaded YAML document `doc`, with the external `Variable.get`
collaborator passed in as `lookup`.  `Except.error` models the uncaught
exception (`ValueError` for the ConfigError funnel, `KeyError`/`TypeError`/
`AttributeError` for the other uncaught Python errors). -/
def parseYaml (fp : String) (lookup : String → String) (doc : Py) :
    Except String DAGConfig := do
  let dag ← tryGet fp doc "dag"
  let dagId ← tryGet fp dag "id"
  let description ← tryGet fp dag "description"
  let report ← tryGet fp dag "report"
  let searchRaw ← tryGet fp dag "search"
  -- Case the search is written in the old structure
  let searchList := match searchRaw with | Py.list xs => xs | s => [s]
  let procSearch ← searchList.mapM (fun sub => do
    let subKvs ← asDict sub
    let tsc ← getTermsParams fp lookup sub
    pure { header := dictGet subKvs "header" Py.null
           sources := dictGet subKvs "sources" (Py.list [Py.str "DOU"])
           terms := tsc.1
           sql := tsc.2.1
           connId := tsc.2.2
           territoryId := dictGet subKvs "territory_id" Py.null
           douSections := dictGet subKvs "dou_sections" (Py.list [Py.str "TODOS"])
           searchDate := dictGet subKvs "date" (Py.str "DIA")
           field := dictGet subKvs "field" (Py.str "TUDO")
           isExactSearch := dictGet subKvs "is_exact_search" (Py.bool true)
           ignoreSignatureMatch := dictGet subKvs "ignore_signature_match" (Py.bool false)
           forceRematch := dictGet subKvs "force_rematch" Py.null
           fullText := dictGet subKvs "full_text" Py.null
           useSummary := dictGet subKvs "use_summary" Py.null
           department := dictGet subKvs "department" Py.null : ProcSearch })
  let dagKvs ← asDict dag
  let owner ← pyJoin ", " (dictGet dagKvs "owner" (Py.list []))
  let reportKvs ← asDict report
  let discordVal := dictGet reportKvs "discord" Py.null
  let discordWebhook ← if pyTruthy discordVal then pyIndexStr discordVal "webhook" else pure Py.null
  let slackVal := dictGet reportKvs "slack" Py.null
  let slackWebhook ← if pyTruthy slackVal then pyIndexStr slackVal "webhook" else pure Py.null
  let schedule := dictGet dagKvs "schedule" Py.null
  let dataset := dictGet dagKvs "dataset" Py.null
  let docMdRaw := dictGet dagKvs "doc_md" Py.null
  let docMd ← if pyTruthy docMdRaw then
      match docMdRaw with
      | Py.str s => pure (Py.str (pyDedent s))
      | _ => Except.error "TypeError: dedent expects a str"
    else pure docMdRaw
  let tagsRaw := dictGet dagKvs "tags" (Py.list [])
  -- tags are modelled as strings (the only hashable kind occurring in the
  -- configuration files); `set(dag_tags)` collapses duplicates
  let dagTags ← match tagsRaw with
    | Py.list xs =>
      match allStrings xs with
      | some ss => pure ((ss ++ ["dou", "generated_dag"]).dedup)
      | none => Except.error "TypeError: non-string tag"
    | _ => Except.error "AttributeError: object has no attribute append"
  let skipNull := dictGet reportKvs "skip_null" (Py.bool true)
  let emails := dictGet reportKvs "emails" Py.null
  let subject := dictGet reportKvs "subject" (Py.str "Extraçao do DOU")
  let attachCsv := dictGet reportKvs "attach_csv" (Py.bool false)
  let hideFilters := dictGet reportKvs "hide_filters" (Py.bool false)
  let headerText := dictGet reportKvs "header_text" Py.null
  let footerText := dictGet reportKvs "footer_text" Py.null
  let noResultsFoundText := dictGet reportKvs "no_results_found_text"
    (Py.str "Nenhum dos termos pesquisados foi encontrado nesta consulta")
  pure { dagId := dagId
         search := procSearch
         emails := emails
         subject := subject
         attachCsv := attachCsv
         discordWebhook := discordWebhook
         slackWebhook := slackWebhook
         schedule := schedule
         dataset := dataset
         description := description
         skipNull := skipNull
         docMd := docMd
         dagTags := dagTags
         owner := owner
         hideFilters := hideFilters
         headerText := headerText
         footerText := footerText
         noResultsFoundText := noResultsFoundText }

/-- One match record of the runtime search report (spec §3): the source
dicts keyed `"section"`, `"href"`, `"title"`, `"abstract"`, `"date"`. -/
structure Match where
  sect : String
  href : String
  title : String
  abstract : String
  date : String
  deriving DecidableEq

/-- Ordered term → match-list mapping of one group. -/
abbrev TermMap := List (String × List Match)

/-- Ordered group → terms mapping: one block's `search["result"]`. -/
abbrev GroupMap := List (String × TermMap)

/-- One block of the search report consumed by the renderers. -/
structure Block where
  header : Option String
  department : Option (List String)
  result : GroupMap
  deriving DecidableEq

/-- The full search report: an ordered list of blocks. -/
abbrev Report := List Block

/-- Modelled from the spec: the stylesheet resource loaded from a fixed
relative path (`report_style.css`, not part of the sources) and injected
verbatim into the `<style>` block; its content is not constrained by the
spec and no claim depends on it. -/
def reportStyleCss : String := "/* report_style.css */"

/-- The external `markdown.markdown` collaborator (the markup-to-HTML
expansion step of spec §4.3).  No claim inspects the expanded HTML, so the
expansion is modelled as the identity embedding of the markup text. -/
def markdownRender (text : String) : String := text

/-- 36 spaces: the indentation of the `item_html` f-string literal lines
(email_sender.py lines 105-108). -/
def sp36 : String := "                                    "

/-- The interpolated `item_html` f-string (email_sender.py lines 104-108),
before the `textwrap` post-processing. -/
def itemHtmlRaw (item : Match) : String :=
  "\n" ++ sp36 ++ "<p class=\"secao-marker\">" ++ item.sect ++ "</p>\n"
    ++ sp36 ++ "### [" ++ item.title ++ "](" ++ item.href ++ ")\n"
    ++ sp36 ++ "<p class='abstract-marker'>" ++ item.abstract ++ "</p>\n"
    ++ sp36 ++ "<p class='date-marker'>" ++ item.date ++ "</p>"

/-- `textwrap.indent(textwrap.dedent(item_html), " " * 4)`
(email_sender.py line 110). -/
def emailItemBlock (item : Match) : String :=
  pyIndent "    " (pyDedent (itemHtmlRaw item))

/-- `EmailSender.generate_email_content` (email_sender.py lines 61-114):
the ordered fragment accumulation joined with newlines and passed through
the markdown expansion. -/
def generateEmailContent (report : Report) : String :=
  let blocks0 : List String := ["<style>\n" ++ reportStyleCss ++ "</style>"]
  let blocks := report.foldl (fun bs search =>
    let bs := match search.header with
      | some h => if ¬ h.isEmpty then bs ++ ["<h1>" ++ h ++ "</h1>"] else bs
      | none => bs
    let bs := match search.department with
      | some (d :: ds) =>
        bs ++ ["<p class=\"secao-marker\">Filtrando resultados somente para:</p>", "<ul>"]
           ++ (d :: ds).map (fun dpt => "<li>" ++ dpt ++ "</li>") ++ ["</ul>"]
      | _ => bs
    let bs := search.result.foldl (fun bs gr =>
      if gr.2.isEmpty then
        bs ++ ["Nenhum dos termos pesquisados foi encontrado nesta consulta."]
      else
        let bs := if gr.1 ≠ "single_group" then
            bs ++ ["\n", "**Grupo: " ++ gr.1 ++ "**", "\n\n"]
          else bs
        gr.2.foldl (fun bs tr =>
          let bs := bs ++ ["\n", "* # Resultados para: " ++ tr.1]
          tr.2.foldl (fun bs item => bs ++ [emailItemBlock item]) bs) bs) bs
    bs ++ ["---"]) blocks0
  markdownRender (String.intercalate "\n" blocks)

/-- `repack_match` (email_sender.py lines 160-170): one flat CSV row,
cells in source order (the header cell may be Python `None`). -/
def repackMatch (header : Option String) (group term : String) (m : Match) :
    List (Option String) :=
  [header, some group, some term, some m.sect, some m.href, some m.title,
   some m.abstract, some m.date]

/-- Truthiness applied to the block header in
`convert_report_dict_to_tuple_list` (`header if header else None`). -/
def truthyHeader (b : Block) : Option String :=
  match b.header with
  | some s => if s.isEmpty then none else some s
  | none => none

/-- `EmailSender.convert_report_dict_to_tuple_list`
(email_sender.py lines 149-157). -/
def tupleList (report : Report) : List (List (Option String)) :=
  report.flatMap (fun b =>
    b.result.flatMap (fun gr =>
      gr.2.flatMap (fun tr =>
        tr.2.map (repackMatch (truthyHeader b) gr.1 tr.1))))

/-- A pandas dataframe, abstracted to its column labels and cell rows. -/
structure Frame where
  columns : List String
  rows : List (List (Option String))
  deriving DecidableEq

/-- `del df[name]`: removes the named column and the corresponding cell of
every row. -/
def delCol (f : Frame) (name : String) : Frame :=
  match f.columns.findIdx? (fun c => c = name) with
  | some i => { columns := f.columns.eraseIdx i, rows := f.rows.map (fun r => r.eraseIdx i) }
  | none => f

/-- The eight column labels assigned at email_sender.py lines 123-132. -/
def csvColumns : List String :=
  ["Consulta", "Grupo", "Termo de pesquisa", "Seção", "URL", "Título", "Resumo", "Data"]

/-- `EmailSender.convert_report_to_dataframe` (email_sender.py lines
121-147).  `none` models the `ValueError` pandas raises when the eight
labels are assigned to the zero-column frame built from an empty tuple
list. -/
def convertReportToDataframe (report : Report) : Option Frame :=
  let tl := tupleList report
  if tl.isEmpty then none
  else
    let delHeader := report.all (fun b => b.header.isNone)
    let delSingle := report.any (fun b => b.result.any (fun gr => gr.1 = "single_group"))
    let f : Frame := { columns := csvColumns, rows := tl }
    let f := if delHeader then delCol f "Consulta" else f
    let f := if delSingle then delCol f "Grupo" else f
    some f

/-- Observable outcome of `EmailSender.send`: the `"skip_notification"`
return, a `send_email` call (with its payload and optional CSV
attachment), the `UnboundLocalError` on the never-assigned `content`
local, or the pandas column-assignment error. -/
inductive EmailOutcome where
  | skip
  | sent (toAddr : Py) (subject : String) (html : String) (csvAttachment : Option Frame)
  | errorUnbound
  | errorPandas

/-- Outcome discriminator: the skipped result. -/
def EmailOutcome.isSkip : EmailOutcome → Bool
  | EmailOutcome.skip => true
  | _ => false

/-- Outcome discriminator: the mail sink was invoked. -/
def EmailOutcome.isSent : EmailOutcome → Bool
  | EmailOutcome.sent _ _ _ _ => true
  | _ => false

/-- The HTML body handed to the mail sink, when it was invoked. -/
def EmailOutcome.htmlOf : EmailOutcome → Option String
  | EmailOutcome.sent _ _ h _ => some h
  | _ => none

/-- The fixed message assigned at email_sender.py line 36. -/
def nothingFoundMsg : String := "Nenhum dos termos pesquisados foi encontrado."

/-- `items = ["contains" for k, v in search["result"].items() if v]` is
non-empty: some group's term-mapping is a non-empty dict (note: this does
NOT look inside the match lists). -/
def blockHasContent (b : Block) : Bool :=
  b.result.any (fun gr => ¬ gr.2.isEmpty)

/-- One iteration of the loop at email_sender.py lines 30-36, carried
state `(skip_notification, content)` with `none` for an unassigned
`content` local. -/
def emailLoopStep (acc : Bool × Option String) (search : Block) : Bool × Option String :=
  if blockHasContent search then (false, acc.2) else (acc.1, some nothingFoundMsg)

/-- `EmailSender.send` (email_sender.py lines 25-59). -/
def emailSend (specs : DAGConfig) (report : Report) (reportDate : String) : EmailOutcome :=
  let fullSubject := pyStr specs.subject ++ " - DOs de " ++ reportDate
  let loop := report.foldl emailLoopStep (true, none)
  if loop.1 && pyTruthy specs.skipNull then EmailOutcome.skip
  else
    let content := if loop.1 then loop.2 else some (generateEmailContent report)
    if pyTruthy specs.attachCsv && !loop.1 then
      match convertReportToDataframe report with
      | none => EmailOutcome.errorPandas
      | some f =>
        match content with
        | some c => EmailOutcome.sent specs.emails fullSubject c (some f)
        | none => EmailOutcome.errorUnbound
    else
      match content with
      | some c => EmailOutcome.sent specs.emails fullSubject c none
      | none => EmailOutcome.errorUnbound

/-- One Slack block-kit block, abstracting the dict literals of
slack_sender.py: `header` carries the plain-text label; `textSection` a
mrkdwn text; `buttonSection` the mrkdwn text plus the button accessory
fields (text, value, url, action id); `divider` the divider. -/
inductive SBlock where
  | header (text : String)
  | textSection (text : String)
  | buttonSection (text buttonText value url actionId : String)
  | divider
  deriving DecidableEq

/-- The four blocks appended per item by `SlackSender._add_block`
(slack_sender.py lines 38-75). -/
def addBlockList (item : Match) : List SBlock :=
  [SBlock.textSection item.title,
   SBlock.textSection item.abstract,
   SBlock.buttonSection "Publicado em: 15/03/2023" "Acessar publicação"
     "click_me_123" item.href "button-action",
   SBlock.divider]

/-- The mutable `SlackSender` instance state: the configured webhook URL
and the accumulated `self.blocks`. -/
structure SlackSenderState where
  webhookUrl : Py
  blocks : List SBlock

/-- `SlackSender.__init__` (slack_sender.py lines 9-11). -/
def slackSenderInit (specs : DAGConfig) : SlackSenderState :=
  ⟨specs.slackWebhook, []⟩

/-- `SlackSender._add_header`. -/
def addHeader (st : SlackSenderState) (text : String) : SlackSenderState :=
  { st with blocks := st.blocks ++ [SBlock.header text] }

/-- `SlackSender._add_block`. -/
def addBlock (st : SlackSenderState) (item : Match) : SlackSenderState :=
  { st with blocks := st.blocks ++ addBlockList item }

/-- Inner term loop of `SlackSender.send` (slack_sender.py lines 19-23). -/
def slackTermStep (st : SlackSenderState) (tr : String × List Match) : SlackSenderState :=
  if tr.2.isEmpty then st
  else tr.2.foldl addBlock (addHeader st ("Termo: " ++ tr.1))

/-- Outer group loop of `SlackSender.send` (slack_sender.py lines 16-23). -/
def slackGroupStep (st : SlackSenderState) (gr : String × TermMap) : SlackSenderState :=
  let st1 := if gr.1 ≠ "single_group" then addHeader st ("Grupo: " ++ gr.1) else st
  gr.2.foldl slackTermStep st1

/-- The payload `{"blocks": ...}` POSTed by `SlackSender._flush` to the
webhook URL. -/
structure SlackPost where
  url : Py
  blocks : List SBlock

/-- `SlackSender.send` followed by `_flush` (slack_sender.py lines 14-24,
78-84): appends to the instance's accumulated `self.blocks` (never
cleared) and POSTs them all; returns the new instance state and the
posted payload. -/
def slackSend (st : SlackSenderState) (searchReport : GroupMap) :
    SlackSenderState × SlackPost :=
  let st' := searchReport.foldl slackGroupStep st
  (st', ⟨st'.webhookUrl, st'.blocks⟩)

/-- Claim-side definition (spec §4.4): per term with at least one match, a
term header block, then per match the three content blocks plus one
divider; terms with no matches contribute nothing. -/
def termBlocksSpec (tr : String × List Match) : List SBlock :=
  if tr.2.isEmpty then []
  else SBlock.header ("Termo: " ++ tr.1) :: tr.2.flatMap addBlockList

/-- Claim-side definition (spec §4.4): no group header for the
`single_group` sentinel, otherwise one header block labelled with the
group, followed by the per-term blocks. -/
def groupBlocksSpec (gr : String × TermMap) : List SBlock :=
  (if gr.1 = "single_group" then [] else [SBlock.header ("Grupo: " ++ gr.1)])
    ++ gr.2.flatMap termBlocksSpec

/-- Claim-side definition (spec §4.4): the ordered block sequence of the
whole report, groups in map order. -/
def renderBlocksSpec (searchReport : GroupMap) : List SBlock :=
  searchReport.flatMap groupBlocksSpec

/-! Helper lemmas about the imperative block accumulation. -/

theorem addBlock_foldl_eq (items : List Match) (st : SlackSenderState) :
    items.foldl addBlock st =
      ⟨st.webhookUrl, st.blocks ++ items.flatMap addBlockList⟩ := by
  induction items generalizing st with
  | nil => simp
  | cons i is ih => simp [List.foldl_cons, addBlock, ih]

theorem termStep_foldl_eq (trs : TermMap) (st : SlackSenderState) :
    trs.foldl slackTermStep st =
      ⟨st.webhookUrl, st.blocks ++ trs.flatMap termBlocksSpec⟩ := by
  induction trs generalizing st with
  | nil => simp
  | cons tr trs ih =>
    simp only [List.foldl_cons, ih]
    by_cases h : tr.2.isEmpty
    · simp [slackTermStep, h, termBlocksSpec]
    · simp [slackTermStep, h, termBlocksSpec, addBlock_foldl_eq, addHeader]

theorem groupStep_foldl_eq (grs : GroupMap) (st : SlackSenderState) :
    grs.foldl slackGroupStep st =
      ⟨st.webhookUrl, st.blocks ++ grs.flatMap groupBlocksSpec⟩ := by
  induction grs generalizing st with
  | nil => simp
  | cons gr grs ih =>
    simp only [List.foldl_cons, ih]
    by_cases h : gr.1 = "single_group"
    · simp [slackGroupStep, h, groupBlocksSpec, termStep_foldl_eq]
    · simp [slackGroupStep, h, groupBlocksSpec, termStep_foldl_eq, addHeader]

theorem slackSend_general (st : SlackSenderState) (r : GroupMap) :
    slackSend st r =
      (⟨st.webhookUrl, st.blocks ++ renderBlocksSpec r⟩,
       ⟨st.webhookUrl, st.blocks ++ renderBlocksSpec r⟩) := by
  simp [slackSend, groupStep_foldl_eq, renderBlocksSpec]

/-- C4: on a fresh chat sender, `send` emits, per group in map order, no
group header for the `single_group` sentinel and one group header block
otherwise; then, per term with at least one match, one term header block
followed, per match in list order, by exactly three content blocks (title
text, abstract text, and the fixed placeholder publication-date caption
whose button action targets the match's `href`) plus one divider block;
terms with no matches contribute no blocks. -/
theorem C4_chat_block_sequence (specs : DAGConfig) (r : GroupMap) :
    (slackSend (slackSenderInit specs) r).2.blocks = renderBlocksSpec r := by
  simp [slackSend_general, slackSenderInit]

/-- C9 counterexample: after a first `send` on the same instance, a second
`send` of the same report does not post only that report's blocks — it
posts the first report's blocks again, followed by the second's. -/
theorem C9_counterexample :
    ((slackSend (slackSend ⟨Py.str "http://hook", []⟩
        [("single_group", [("t1", [⟨"S1", "H1", "T1", "A1", "D1"⟩])])]).1
        [("single_group", [("t1", [⟨"S1", "H1", "T1", "A1", "D1"⟩])])]).2.blocks ≠
      renderBlocksSpec [("single_group", [("t1", [⟨"S1", "H1", "T1", "A1", "D1"⟩])])]) ∧
    ((slackSend (slackSend ⟨Py.str "http://hook", []⟩
        [("single_group", [("t1", [⟨"S1", "H1", "T1", "A1", "D1"⟩])])]).1
        [("single_group", [("t1", [⟨"S1", "H1", "T1", "A1", "D1"⟩])])]).2.blocks =
      renderBlocksSpec [("single_group", [("t1", [⟨"S1", "H1", "T1", "A1", "D1"⟩])])] ++
      renderBlocksSpec [("single_group", [("t1", [⟨"S1", "H1", "T1", "A1", "D1"⟩])])]) := by
  exact ⟨by decide, by decide⟩

/-- C9 (amended): each `send` invocation POSTs exactly one payload of
shape `{"blocks": [...]}` to the configured webhook, whose blocks are the
blocks already accumulated on the instance followed by the blocks derived
from the report passed to that invocation; the accumulation is retained in
the instance state, so a repeated invocation re-posts earlier reports'
blocks. -/
theorem C9_amended_accumulates (st : SlackSenderState) (r : GroupMap) :
    slackSend st r =
      (⟨st.webhookUrl, st.blocks ++ renderBlocksSpec r⟩,
       ⟨st.webhookUrl, st.blocks ++ renderBlocksSpec r⟩) :=
  slackSend_general st r

/-! Helper lemmas about the suppression loop of `EmailSender.send`. -/

theorem blockHasContent_eq_false {b : Block} (h : ∀ gr ∈ b.result, gr.2 = []) :
    blockHasContent b = false := by
  unfold blockHasContent
  rw [List.any_eq_false]
  intro gr hgr
  simp [h gr hgr]

theorem emailLoop_fst (report : Report) (init : Bool × Option String) :
    (report.foldl emailLoopStep init).1 = (init.1 && !report.any blockHasContent) := by
  induction report generalizing init with
  | nil => simp
  | cons b bs ih =>
    simp only [List.foldl_cons, List.any_cons, ih]
    by_cases hb : blockHasContent b
    · simp [emailLoopStep, hb]
    · simp [emailLoopStep, hb]

theorem emailLoop_snd_allEmpty :
    ∀ (report : Report) (init : Bool × Option String),
      (∀ b ∈ report, blockHasContent b = false) → report ≠ [] →
      (report.foldl emailLoopStep init).2 = some nothingFoundMsg := by
  intro report
  induction report with
  | nil => intro init _ hne; exact absurd rfl hne
  | cons b bs ih =>
    intro init h _
    have hb : blockHasContent b = false := h b (by simp)
    rcases eq_or_ne bs [] with hbs | hbs
    · subst hbs; simp [emailLoopStep, hb]
    · simp only [List.foldl_cons]
      exact ih _ (fun x hx => h x (by simp [hx])) hbs

theorem emailAny_eq_false {report : Report}
    (h : ∀ b ∈ report, ∀ gr ∈ b.result, gr.2 = []) :
    report.any blockHasContent = false := by
  rw [List.any_eq_false]
  intro b hb
  simp [blockHasContent_eq_false (h b hb)]

/-- Fixture for the C1 counterexample: `skip_null` is true. -/
def c1CexSpecs : DAGConfig :=
  { dagId := Py.str "d"
    search := []
    emails := Py.list [Py.str "a@b.c"]
    subject := Py.str "Sub"
    attachCsv := Py.bool false
    discordWebhook := Py.null
    slackWebhook := Py.null
    schedule := Py.null
    dataset := Py.null
    description := Py.str "x"
    skipNull := Py.bool true
    docMd := Py.null
    dagTags := []
    owner := ""
    hideFilters := Py.bool false
    headerText := Py.null
    footerText := Py.null
    noResultsFoundText := Py.null }

/-- Fixture for the C1 counterexample: one block whose only group has one
term with an empty match list — every match list is empty, yet the group's
term-mapping is a non-empty dict. -/
def c1CexReport : Report :=
  [{ header := none, department := none, result := [("single_group", [("t", [])])] }]

/-- C1 counterexample: a report in which every match list is empty (no
term matched anything) and `skipNull` is true, for which `EmailSender.send`
does NOT return the skipped result — it invokes the mail sink — because
the code only tests whether each group's term-mapping is a non-empty dict,
not whether the match lists are empty. -/
theorem C1_counterexample :
    c1CexReport.all (fun b => b.result.all (fun gr => gr.2.all (fun tr => tr.2.isEmpty))) = true ∧
    pyTruthy c1CexSpecs.skipNull = true ∧
    (emailSend c1CexSpecs c1CexReport "01/01/2024").isSkip = false ∧
    (emailSend c1CexSpecs c1CexReport "01/01/2024").isSent = true :=
  ⟨rfl, rfl, rfl, rfl⟩

/-- C1 (amended): for every search report in which every block's result
mapping maps each group to an EMPTY term-mapping (this is the emptiness
notion the code tests, stronger than "only empty match lists"), and a
configuration with `skipNull` true, `EmailSender.send` returns the
distinguishable skipped result (and hence does not invoke the mail sink). -/
theorem C1_amended_skip_when_groups_empty (specs : DAGConfig) (report : Report)
    (d : String) (hskip : pyTruthy specs.skipNull = true)
    (hempty : ∀ b ∈ report, ∀ gr ∈ b.result, gr.2 = []) :
    emailSend specs report d = EmailOutcome.skip := by
  have hfst : (report.foldl emailLoopStep (true, none)).1 = true := by
    rw [emailLoop_fst]; simp [emailAny_eq_false hempty]
  simp [emailSend, hfst, hskip]

/-- Fixture for the C1 witness: one block whose result maps its only group
to an empty term-mapping. -/
def c1WitnessReport : Report :=
  [{ header := none, department := none, result := [("g", [])] }]

/-- C1 witness: the amended theorem applied at a concrete empty report and
a concrete configuration with `skip_null` true. -/
theorem C1_witness :
    emailSend c1CexSpecs c1WitnessReport "01/01/2024" = EmailOutcome.skip :=
  C1_amended_skip_when_groups_empty c1CexSpecs c1WitnessReport "01/01/2024" rfl (by decide)

/-- Fixture for the C8/C10 side: `skip_null` is false. -/
def c8Specs : DAGConfig :=
  { dagId := Py.str "d"
    search := []
    emails := Py.list [Py.str "a@b.c"]
    subject := Py.str "Sub"
    attachCsv := Py.bool false
    discordWebhook := Py.null
    slackWebhook := Py.null
    schedule := Py.null
    dataset := Py.null
    description := Py.str "x"
    skipNull := Py.bool false
    docMd := Py.null
    dagTags := []
    owner := ""
    hideFilters := Py.bool false
    headerText := Py.null
    footerText := Py.null
    noResultsFoundText := Py.null }

/-- Fixture: a report that is "empty" in the claim's sense (only empty
match lists) but not in the code's sense (the term-mapping is non-empty). -/
def c8CexReport : Report :=
  [{ header := none, department := none, result := [("single_group", [("t", [])])] }]

/-- C8 counterexample: with `skipNull` false, (i) on the zero-block report
(vacuously "every match list is empty") the notification is NOT sent — the
unassigned `content` local raises `UnboundLocalError` — and (ii) on a
report whose only match list is empty, the mail is sent but its HTML body
is the full generated structure, not the single fixed "nothing found"
message. -/
theorem C8_counterexample :
    pyTruthy c8Specs.skipNull = false ∧
    emailSend c8Specs ([] : Report) "01/01/2024" = EmailOutcome.errorUnbound ∧
    c8CexReport.all (fun b => b.result.all (fun gr => gr.2.all (fun tr => tr.2.isEmpty))) = true ∧
    (emailSend c8Specs c8CexReport "01/01/2024").isSent = true ∧
    (emailSend c8Specs c8CexReport "01/01/2024").htmlOf ≠ some nothingFoundMsg :=
  ⟨rfl, rfl, rfl, rfl, by decide⟩

/-- C8 (amended): for every NON-EMPTY search report in which every block's
result mapping maps each group to an empty term-mapping (the emptiness
notion the code tests), with `skipNull` false, the notification is still
sent and its HTML body is exactly the fixed "nothing found" message (so no
per-match fragments), with no CSV attachment. -/
theorem C8_amended_nothing_found_sent (specs : DAGConfig) (report : Report)
    (d : String) (hskip : pyTruthy specs.skipNull = false) (hne : report ≠ [])
    (hempty : ∀ b ∈ report, ∀ gr ∈ b.result, gr.2 = []) :
    emailSend specs report d =
      EmailOutcome.sent specs.emails (pyStr specs.subject ++ " - DOs de " ++ d)
        nothingFoundMsg none := by
  have hfst : (report.foldl emailLoopStep (true, none)).1 = true := by
    rw [emailLoop_fst]; simp [emailAny_eq_false hempty]
  have hsnd : (report.foldl emailLoopStep (true, none)).2 = some nothingFoundMsg :=
    emailLoop_snd_allEmpty report (true, none)
      (fun b hb => blockHasContent_eq_false (hempty b hb)) hne
  simp [emailSend, hfst, hsnd, hskip]

/-- Fixture for the C8 witness: `skip_null` false and `attach_csv` true
(the CSV branch is still not taken on a suppressed-but-sent report). -/
def c8WitnessSpecs : DAGConfig :=
  { c8Specs with attachCsv := Py.bool true }

/-- Fixture for the C8 witness: two blocks, all groups empty. -/
def c8WitnessReport : Report :=
  [{ header := some "h", department := none, result := [("g", [])] },
   { header := none, department := none, result := [] }]

/-- C8 witness: the amended theorem applied at a concrete non-empty report
with empty group mappings and `skip_null` false. -/
theorem C8_witness :
    emailSend c8WitnessSpecs c8WitnessReport "02/02/2024" =
      EmailOutcome.sent c8WitnessSpecs.emails
        (pyStr c8WitnessSpecs.subject ++ " - DOs de " ++ "02/02/2024")
        nothingFoundMsg none :=
  C8_amended_nothing_found_sent c8WitnessSpecs c8WitnessReport "02/02/2024"
    rfl (by decide) (by decide)

/-- C10: for the zero-block report with `skipNull` false,
`EmailSender.send` evaluates the never-assigned `content` local
(`UnboundLocalError`) and the mail sink is not contacted: `send` is not
total over all report values. -/
theorem C10_zero_block_unbound (specs : DAGConfig) (d : String)
    (hskip : pyTruthy specs.skipNull = false) :
    emailSend specs ([] : Report) d = EmailOutcome.errorUnbound ∧
    (emailSend specs ([] : Report) d).isSent = false := by
  have h : emailSend specs ([] : Report) d = EmailOutcome.errorUnbound := by
    simp [emailSend, hskip]
  exact ⟨h, by rw [h]; rfl⟩

/-- C10 witness: the theorem applied at a concrete `skip_null = false`
configuration. -/
theorem C10_witness :
    emailSend c8Specs ([] : Report) "01/01/2024" = EmailOutcome.errorUnbound ∧
    (emailSend c8Specs ([] : Report) "01/01/2024").isSent = false :=
  C10_zero_block_unbound c8Specs "01/01/2024" rfl

/-! CSV export claims. -/

theorem allHeaderNone_iff (report : Report) :
    report.all (fun b => b.header.isNone) = true ↔ ∀ b ∈ report, b.header = none := by
  simp [List.all_eq_true, Option.isNone_iff_eq_none]

theorem anySingleGroup_iff (report : Report) :
    report.any (fun b => b.result.any (fun gr => gr.1 = "single_group")) = true ↔
      ∃ b ∈ report, ∃ gr ∈ b.result, gr.1 = "single_group" := by
  simp [List.any_eq_true]

theorem frame_mk_columns (rows : List (List (Option String))) :
    (Frame.mk csvColumns rows).columns = csvColumns := rfl

theorem delCol_consulta_columns (rows : List (List (Option String))) :
    (delCol (Frame.mk csvColumns rows) "Consulta").columns =
      ["Grupo", "Termo de pesquisa", "Seção", "URL", "Título", "Resumo", "Data"] := rfl

theorem delCol_grupo_columns (rows : List (List (Option String))) :
    (delCol (Frame.mk csvColumns rows) "Grupo").columns =
      ["Consulta", "Termo de pesquisa", "Seção", "URL", "Título", "Resumo", "Data"] := rfl

theorem delCol_both_columns (rows : List (List (Option String))) :
    (delCol (delCol (Frame.mk csvColumns rows) "Consulta") "Grupo").columns =
      ["Termo de pesquisa", "Seção", "URL", "Título", "Resumo", "Data"] := rfl

/-- C5: in the CSV export, the `Consulta` (search-label) column is dropped
iff no block in the whole report has a header, and the `Grupo` column is
dropped iff at least one block's result mapping uses the `single_group`
sentinel key (the hypothesis restricts to reports on which pandas accepts
the eight column labels, i.e. at least one flattened row exists). -/
theorem C5_csv_columns (report : Report) (f : Frame)
    (h : convertReportToDataframe report = some f) :
    (("Consulta" ∉ f.columns) ↔ ∀ b ∈ report, b.header = none) ∧
    (("Grupo" ∉ f.columns) ↔ ∃ b ∈ report, ∃ gr ∈ b.result, gr.1 = "single_group") := by
  have hAllIff := allHeaderNone_iff report
  have hAnyIff := anySingleGroup_iff report
  unfold convertReportToDataframe at h
  cases htl : (tupleList report).isEmpty with
  | true =>
    simp only [htl, if_true] at h
    exact Option.noConfusion h
  | false =>
    simp only [htl, Bool.false_eq_true, if_false] at h
    cases hH : report.all (fun b => b.header.isNone) with
    | true =>
      have hAll : ∀ b ∈ report, b.header = none := hAllIff.mp hH
      cases hS : report.any (fun b => b.result.any (fun gr => gr.1 = "single_group")) with
      | true =>
        simp only [hH, hS, if_true, Option.some.injEq] at h
        subst h
        exact ⟨iff_of_true (by rw [delCol_both_columns]; decide) hAll,
               iff_of_true (by rw [delCol_both_columns]; decide) (hAnyIff.mp hS)⟩
      | false =>
        simp only [hH, hS, if_true, Bool.false_eq_true, if_false, Option.some.injEq] at h
        subst h
        refine ⟨iff_of_true (by rw [delCol_consulta_columns]; decide) hAll,
                iff_of_false (by rw [delCol_consulta_columns]; decide) ?_⟩
        intro hx
        rw [← hAnyIff] at hx
        simp [hx] at hS
    | false =>
      have hNotAll : ¬ ∀ b ∈ report, b.header = none := by
        intro hx
        rw [← hAllIff] at hx
        simp [hx] at hH
      cases hS : report.any (fun b => b.result.any (fun gr => gr.1 = "single_group")) with
      | true =>
        simp only [hH, hS, Bool.false_eq_true, if_false, if_true, Option.some.injEq] at h
        subst h
        exact ⟨iff_of_false (by rw [delCol_grupo_columns]; decide) hNotAll,
               iff_of_true (by rw [delCol_grupo_columns]; decide) (hAnyIff.mp hS)⟩
      | false =>
        simp only [hH, hS, Bool.false_eq_true, if_false, Option.some.injEq] at h
        subst h
        refine ⟨iff_of_false (by rw [frame_mk_columns]; decide) hNotAll,
                iff_of_false (by rw [frame_mk_columns]; decide) ?_⟩
        intro hx
        rw [← hAnyIff] at hx
        simp [hx] at hS

/-- Fixture for the C5 witness: one block with a header and a non-sentinel
group containing one match. -/
def c5WitnessReport : Report :=
  [{ header := some "h", department := none,
     result := [("g", [("t", [⟨"S", "H", "T", "A", "D"⟩])])] }]

/-- The frame the export produces on `c5WitnessReport`: both columns kept. -/
def c5WitnessFrame : Frame :=
  ⟨csvColumns,
   [[some "h", some "g", some "t", some "S", some "H", some "T", some "A", some "D"]]⟩

/-- C5 witness: the theorem applied at a concrete report holding a header
and no `single_group` sentinel, whose export keeps both columns. -/
theorem C5_witness :
    (("Consulta" ∉ c5WitnessFrame.columns) ↔ ∀ b ∈ c5WitnessReport, b.header = none) ∧
    (("Grupo" ∉ c5WitnessFrame.columns) ↔
      ∃ b ∈ c5WitnessReport, ∃ gr ∈ b.result, gr.1 = "single_group") :=
  C5_csv_columns c5WitnessReport c5WitnessFrame rfl

/-! Configuration-parser claims. -/

/-- C2 counterexample: with the Airflow variable holding `"42"`, the
string parses as a Python literal that is not a list, and the resolved
terms are the integer `42` — not the line-split list `["42"]` the claim's
fallback clause predicts. -/
theorem C2_counterexample :
    getTermsParams "f.yaml" (fun _ => "42")
        (Py.dict [("terms", Py.dict [("from_airflow_variable", Py.str "X")])]) =
      Except.ok (Py.int 42, Py.null, Py.null) ∧
    literalEval "42" = some (Py.int 42) ∧
    Py.int 42 ≠ Py.list ((pySplitlines "42").map Py.str) :=
  ⟨rfl, rfl, fun hx => Py.noConfusion hx⟩

/-- C2 (amended): for every search block whose `terms` field is a mapping
with key `from_airflow_variable` naming variable `X`, term resolution
calls the external lookup on `X`; if the returned string parses as a
Python literal the resolved terms equal the parsed value (the list itself
when the literal is a list, but possibly a non-list value such as an
integer), otherwise the resolved terms equal the string split on line
breaks; `sql` and `conn_id` resolve to `None`. -/
theorem C2_amended_variable_terms (fp : String) (lookup : String → String)
    (skvs tkvs : List (String × Py)) (X : String)
    (h1 : skvs.lookup "terms" = some (Py.dict tkvs))
    (h2 : tkvs.lookup "from_airflow_variable" = some (Py.str X)) :
    getTermsParams fp lookup (Py.dict skvs) =
      Except.ok
        (match literalEval (lookup X) with
         | some v => v
         | none => Py.list ((pySplitlines (lookup X)).map Py.str),
         Py.null, Py.null) := by
  simp only [getTermsParams, tryGet, h1, h2]
  cases literalEval (lookup X) <;> rfl

/-- C2 witness: the amended theorem applied at the two concrete lookups of
the spec's example (a list literal, and a line-broken plain string). -/
theorem C2_witness :
    getTermsParams "f.yaml" (fun _ => "a\nb")
        (Py.dict [("terms", Py.dict [("from_airflow_variable", Py.str "X")])]) =
      Except.ok (Py.list [Py.str "a", Py.str "b"], Py.null, Py.null) ∧
    getTermsParams "f.yaml" (fun _ => "[\"a\",\"b\"]")
        (Py.dict [("terms", Py.dict [("from_airflow_variable", Py.str "X")])]) =
      Except.ok (Py.list [Py.str "a", Py.str "b"], Py.null, Py.null) := by
  constructor
  · rw [C2_amended_variable_terms "f.yaml" (fun _ => "a\nb")
      [("terms", Py.dict [("from_airflow_variable", Py.str "X")])]
      [("from_airflow_variable", Py.str "X")] "X" rfl rfl]
    rfl
  · rw [C2_amended_variable_terms "f.yaml" (fun _ => "[\"a\",\"b\"]")
      [("terms", Py.dict [("from_airflow_variable", Py.str "X")])]
      [("from_airflow_variable", Py.str "X")] "X" rfl rfl]
    rfl

/-- C3 counterexample: a full parse whose only failure is the invalid
terms-indirection shape raises the fixed message, which does not contain
the source file name. -/
theorem C3_counterexample :
    parseYaml "path/config_x.yaml" (fun _ => "")
        (Py.dict [("dag", Py.dict
          [("id", Py.str "d"), ("description", Py.str "x"),
           ("report", Py.dict []),
           ("search", Py.dict [("terms", Py.dict [("bogus", Py.str "v")])])])]) =
      Except.error termsFieldErrorMsg ∧
    ¬ ("config_x.yaml".toList <:+: termsFieldErrorMsg.toList) := by
  refine ⟨rfl, ?_⟩
  set_option maxRecDepth 10000 in decide

/-- C3 (amended): ConfigErrors raised through the required-field accessor
carry a message containing both the source file name and the field name;
the invalid terms-indirection shape instead raises a fixed message that
names the `terms` field and the valid options but — being the same
constant for every file path — does not include the file name. -/
theorem C3_amended_error_contents :
    (∀ (fp field : String) (kvs : List (String × Py)), kvs.lookup field = none →
        tryGet fp (Py.dict kvs) field = Except.error (missingFieldMsg fp field)) ∧
    (∀ (fp field : String),
        (fileName fp).toList <:+: (missingFieldMsg fp field).toList ∧
        field.toList <:+: (missingFieldMsg fp field).toList) ∧
    (∀ (fp : String) (lookup : String → String) (skvs tkvs : List (String × Py)),
        skvs.lookup "terms" = some (Py.dict tkvs) →
        tkvs.lookup "from_airflow_variable" = none →
        tkvs.lookup "from_db_select" = none →
        getTermsParams fp lookup (Py.dict skvs) = Except.error termsFieldErrorMsg) := by
  refine ⟨?_, ?_, ?_⟩
  · intro fp field kvs hk
    simp [tryGet, hk]
  · intro fp field
    constructor
    · exact ⟨"Erro no arquivo ".toList,
             (": O campo `" ++ field ++ "` é obrigatório.").toList,
             by simp [missingFieldMsg]⟩
    · exact ⟨("Erro no arquivo " ++ fileName fp ++ ": O campo `").toList,
             "` é obrigatório.".toList,
             by simp [missingFieldMsg]⟩
  · intro fp lookup skvs tkvs h1 h2 h3
    simp only [getTermsParams, tryGet, h1, h2, h3]

/-- C3 witness: the amended theorem applied at a concrete missing field
(`id` in file `a/b.yaml`) and at a concrete invalid terms shape. -/
theorem C3_witness :
    tryGet "a/b.yaml" (Py.dict []) "id" = Except.error (missingFieldMsg "a/b.yaml" "id") ∧
    getTermsParams "a/b.yaml" (fun _ => "")
        (Py.dict [("terms", Py.dict [("bogus", Py.null)])]) =
      Except.error termsFieldErrorMsg :=
  ⟨C3_amended_error_contents.1 "a/b.yaml" "id" [] rfl,
   C3_amended_error_contents.2.2 "a/b.yaml" (fun _ => "") _ _ rfl rfl rfl⟩

/-- C6: for every raw configuration document whose `dag` mapping lacks the
key `id`, the parse fails with the ConfigError naming field `id`, of the
form `Erro no arquivo {filename}: O campo \x60id\x60 é obrigatório.`, and
no configuration is returned. -/
theorem C6_missing_dag_id (fp : String) (lookup : String → String)
    (docKvs dagKvs : List (String × Py))
    (h1 : docKvs.lookup "dag" = some (Py.dict dagKvs))
    (h2 : dagKvs.lookup "id" = none) :
    parseYaml fp lookup (Py.dict docKvs) = Except.error (missingFieldMsg fp "id") := by
  simp only [parseYaml, tryGet, h1, h2, Bind.bind, Except.bind]

/-- C6 witness: the theorem applied at a concrete document whose `dag`
mapping has no `id` key. -/
theorem C6_witness :
    parseYaml "dags/dag_a.yaml" (fun _ => "")
        (Py.dict [("dag", Py.dict [("description", Py.str "x")])]) =
      Except.error "Erro no arquivo dag_a.yaml: O campo `id` é obrigatório." := by
  rw [C6_missing_dag_id "dags/dag_a.yaml" (fun _ => "")
    [("dag", Py.dict [("description", Py.str "x")])]
    [("description", Py.str "x")] rfl rfl]
  rfl

/-- C7: for every search block whose `terms` field is a mapping with key
`from_db_select` (and no `from_airflow_variable` key, which the code
checks first), resolution extracts the `sql` and `conn_id` sub-fields
through the required-field accessor — failing with its ConfigError if
either is absent — and the resolved terms list is empty. -/
theorem C7_from_db_select (fp : String) (lookup : String → String)
    (skvs tkvs : List (String × Py)) (dbv : Py)
    (h1 : skvs.lookup "terms" = some (Py.dict tkvs))
    (h2 : tkvs.lookup "from_airflow_variable" = none)
    (h3 : tkvs.lookup "from_db_select" = some dbv) :
    getTermsParams fp lookup (Py.dict skvs) =
      (do
        let sql ← tryGet fp dbv "sql"
        let connId ← tryGet fp dbv "conn_id"
        Except.ok (Py.list [], sql, connId)) := by
  have e1 : tryGet fp (Py.dict skvs) "terms" = Except.ok (Py.dict tkvs) := by
    simp [tryGet, h1]
  simp only [getTermsParams, e1, h2, h3]
  cases hs : tryGet fp dbv "sql" with
  | error e => simp [Bind.bind, Except.bind]
  | ok sql =>
    cases hc : tryGet fp dbv "conn_id" with
    | error e => simp [Bind.bind, Except.bind]
    | ok connId => simp [Bind.bind, Except.bind]

/-- C7 witness: the theorem applied at a concrete `from_db_select` mapping
with both sub-fields present. -/
theorem C7_witness :
    getTermsParams "f.yaml" (fun _ => "")
        (Py.dict [("terms", Py.dict [("from_db_select",
           Py.dict [("sql", Py.str "SELECT t FROM x"), ("conn_id", Py.str "c")])])]) =
      Except.ok (Py.list [], Py.str "SELECT t FROM x", Py.str "c") :=
  C7_from_db_select "f.yaml" (fun _ => "")
    [("terms", Py.dict [("from_db_select",
       Py.dict [("sql", Py.str "SELECT t FROM x"), ("conn_id", Py.str "c")])])]
    [("from_db_select",
       Py.dict [("sql", Py.str "SELECT t FROM x"), ("conn_id", Py.str "c")])]
    (Py.dict [("sql", Py.str "SELECT t FROM x"), ("conn_id", Py.str "c")]) rfl rfl rfl

end RoDou
